import Mathlib

/-!
Verification development for the profile / verification-code / notification
backend. The Python source (`app/services/profiles.py`,
`app/routers/notifications.py`) is shallowly embedded below: datetimes become
integer seconds, the database row `UserProfile` becomes the structure
`Profile`, and each store method becomes a pure function threading the profile
state explicitly. Password hashing is abstracted by a function parameter
`hp : String → String` (bcrypt's `hash_password`), with
`verify_password(code, h)` modelled as `hp code = h`; the random 6-digit code
is passed in as an argument, standing for `_generate_code()`.
-/

namespace Backend

/-- `CODE_TTL_MINUTES = 15` from `profiles.py`. -/
def CODE_TTL_MINUTES : Int := 15

/-- `REQUEST_COOLDOWN_SECONDS = 60` from `profiles.py`. -/
def REQUEST_COOLDOWN_SECONDS : Int := 60

/-- The mutable columns of the `UserProfile` row, as read and written by
`ProfileStore`. Timestamps are integer seconds. The shape is taken from the
field accesses in `profiles.py` (`models.py` itself is not part of the
source tree, but every field the claims touch appears in `profiles.py`). -/
structure Profile where
  email : Option String
  email_verified_at : Option Int
  phone_e164 : Option String
  phone_verified_at : Option Int
  verify_email_code_hash : Option String
  verify_phone_code_hash : Option String
  verify_expires_at : Option Int
  verify_requested_at : Option Int
  first_name : Option String
  last_name : Option String
  display_name : Option String
  avatar_url : Option String
  bio : Option String
  timezone : Option String
  locale : Option String
  marketing_opt_in : Bool
  notify_prefs : Option (List (String × String))
deriving DecidableEq, Repr

/-- The partial-update input `UpdateProfilePayload`; field names and the
`None`-means-absent convention are taken from how `update_profile` reads the
payload. -/
structure UpdateProfilePayload where
  email : Option String := none
  phoneE164 : Option String := none
  firstName : Option String := none
  lastName : Option String := none
  displayName : Option String := none
  avatarUrl : Option String := none
  bio : Option String := none
  timezone : Option String := none
  locale : Option String := none
  marketingOptIn : Option Bool := none
  notifyPrefs : Option (List (String × String)) := none
deriving DecidableEq, Repr

/-- Python `s.lower().strip()`. -/
def lowerStrip (s : String) : String := s.toLower.trim

/-- Python `s or None` on a string: the empty string collapses to `None`. -/
def strOrNone (s : String) : Option String := if s = "" then none else some s

/-- Python truthiness test `not x` on an optional string: true when the value
is `None` or the empty string. -/
def strFalsy : Option String → Bool
  | none => true
  | some s => s = ""

/-- Python `if payload.x is not None: profile.x = payload.x` — a present
payload field overwrites the stored one, an absent field leaves it alone. -/
def overwriteOpt {α : Type} (cur : Option α) (new : Option α) : Option α :=
  match new with
  | none => cur
  | some v => some v

/-- `update_profile`, lines 51-56: when `payload.email` is present and differs
from the stored value, store the lowercased/trimmed value (empty collapsing
to null) and clear the email verification state and the shared
expiry/request-timestamp. -/
def apply_email_change (p : Profile) (payload : UpdateProfilePayload) : Profile :=
  match payload.email with
  | none => p
  | some e =>
    if some e ≠ p.email then
      { p with
        email := strOrNone (lowerStrip e)
        email_verified_at := none
        verify_email_code_hash := none
        verify_expires_at := none
        verify_requested_at := none }
    else p

/-- `update_profile`, lines 57-62: the analogous reset for the phone channel
(the new value is trimmed but not lowercased). -/
def apply_phone_change (p : Profile) (payload : UpdateProfilePayload) : Profile :=
  match payload.phoneE164 with
  | none => p
  | some ph =>
    if some ph ≠ p.phone_e164 then
      { p with
        phone_e164 := strOrNone ph.trim
        phone_verified_at := none
        verify_phone_code_hash := none
        verify_expires_at := none
        verify_requested_at := none }
    else p

/-- `update_profile`, lines 64-81: the nine independent `if payload.x is not
None: profile.x = ...` overwrites. Each guard writes a distinct field and
reads only the payload, so the sequence of conditional assignments equals
this simultaneous record update. -/
def apply_display_fields (p : Profile) (payload : UpdateProfilePayload) : Profile :=
  { p with
    first_name := overwriteOpt p.first_name payload.firstName
    last_name := overwriteOpt p.last_name payload.lastName
    display_name := overwriteOpt p.display_name payload.displayName
    avatar_url := overwriteOpt p.avatar_url payload.avatarUrl
    bio := overwriteOpt p.bio payload.bio
    timezone := overwriteOpt p.timezone payload.timezone
    locale := overwriteOpt p.locale payload.locale
    marketing_opt_in := payload.marketingOptIn.getD p.marketing_opt_in
    notify_prefs := overwriteOpt p.notify_prefs payload.notifyPrefs }

/-- `ProfileStore.update_profile`, lines 51-81: the email/phone
change-detection-and-reset branches followed by the plain per-field
overwrites, in source order. -/
def update_profile (p : Profile) (payload : UpdateProfilePayload) : Profile :=
  apply_display_fields (apply_phone_change (apply_email_change p payload) payload) payload

/-- The rate-limit test shared by `request_email_code` (line 95) and
`request_phone_code` (line 130): `verify_requested_at` is set and fewer than
`REQUEST_COOLDOWN_SECONDS` have elapsed since it. -/
def rate_limited (p : Profile) (now : Int) : Bool :=
  match p.verify_requested_at with
  | none => false
  | some t => now - t < REQUEST_COOLDOWN_SECONDS

/-- `ProfileStore.request_email_code`, lines 87-103. `hp` stands for
`hash_password`; `code` is the value `_generate_code()` returned. On the
rate-limited path the Python raises `RuntimeError` before any write, which the
embedding renders as `Except.error`. -/
def request_email_code (hp : String → String) (now : Int) (code : String)
    (p : Profile) (email : String) : Except String Profile :=
  if rate_limited p now then
    .error "Please wait before requesting another code"
  else
    .ok { p with
      email := some (lowerStrip email)
      verify_email_code_hash := some (hp code)
      verify_phone_code_hash := none
      verify_expires_at := some (now + CODE_TTL_MINUTES * 60)
      verify_requested_at := some now }

/-- `ProfileStore.request_phone_code`, lines 123-138. -/
def request_phone_code (hp : String → String) (now : Int) (code : String)
    (p : Profile) (phone : String) : Except String Profile :=
  if rate_limited p now then
    .error "Please wait before requesting another code"
  else
    .ok { p with
      phone_e164 := some phone.trim
      verify_phone_code_hash := some (hp code)
      verify_email_code_hash := none
      verify_expires_at := some (now + CODE_TTL_MINUTES * 60)
      verify_requested_at := some now }

/-- The committed profile after a `request_email_code` call: a raised
`RuntimeError` leaves the `async with` block without `session.commit()`, so
the stored row keeps its prior state. -/
def request_email_code_commit (hp : String → String) (now : Int) (code : String)
    (p : Profile) (email : String) : Profile :=
  match request_email_code hp now code p email with
  | .ok q => q
  | .error _ => p

/-- The committed profile after a `request_phone_code` call (rollback on
error, as for email). -/
def request_phone_code_commit (hp : String → String) (now : Int) (code : String)
    (p : Profile) (phone : String) : Profile :=
  match request_phone_code hp now code p phone with
  | .ok q => q
  | .error _ => p

/-- `ProfileStore.verify_email`, lines 105-121, returning the boolean result
together with the committed profile state (the `return False` paths commit
nothing, so they return `p` unchanged). -/
def verify_email (hp : String → String) (now : Int) (p : Profile)
    (code : String) : Bool × Profile :=
  match p.verify_email_code_hash, p.verify_expires_at with
  | some h, some exp =>
    if h = "" then (false, p)
    else if exp < now then (false, p)
    else if hp code = h then
      (true, { p with
        email_verified_at := some now
        verify_email_code_hash := none
        verify_expires_at := none
        verify_requested_at := none })
    else (false, p)
  | _, _ => (false, p)

/-- `ProfileStore.verify_phone`, lines 140-156. -/
def verify_phone (hp : String → String) (now : Int) (p : Profile)
    (code : String) : Bool × Profile :=
  match p.verify_phone_code_hash, p.verify_expires_at with
  | some h, some exp =>
    if h = "" then (false, p)
    else if exp < now then (false, p)
    else if hp code = h then
      (true, { p with
        phone_verified_at := some now
        verify_phone_code_hash := none
        verify_expires_at := none
        verify_requested_at := none })
    else (false, p)
  | _, _ => (false, p)

/-- A stored `Notification` row as read by `routers/notifications.py`:
id, type tag, nullable payload map, creation timestamp, nullable read
timestamp. Timestamps are integer seconds; the payload map is a key/value
list. -/
structure Notification where
  id : String
  type : String
  data : Option (List (String × String))
  created_at : Int
  read_at : Option Int
deriving DecidableEq, Repr

/-- The response item `NotificationOut` built in `list_notifications`. -/
structure NotificationOut where
  id : String
  type : String
  data : List (String × String)
  createdAt : Int
  readAt : Option Int
deriving DecidableEq, Repr

/-- The projection `NotificationOut(id=n.id, type=n.type, data=n.data or {},
createdAt=n.created_at, readAt=n.read_at)` from `list_notifications`;
`n.data or {}` defaults a null payload to the empty map. -/
def notificationOut (n : Notification) : NotificationOut :=
  { id := n.id
    type := n.type
    data := n.data.getD []
    createdAt := n.created_at
    readAt := n.read_at }

/-- `list_notifications` (`routers/notifications.py`, lines 29-42): the SQL
query `ORDER BY created_at DESC LIMIT 50` over the caller's stored rows,
then the projection to `NotificationOut`. The sort is by descending
`created_at`. -/
def list_notifications (stored : List Notification) : List NotificationOut :=
  ((stored.mergeSort (fun a b => b.created_at ≤ a.created_at)).take 50).map notificationOut

/-- An empty profile row, as `_get_or_create_profile` would lazily create. -/
def baseProfile : Profile :=
  { email := none, email_verified_at := none, phone_e164 := none,
    phone_verified_at := none, verify_email_code_hash := none,
    verify_phone_code_hash := none, verify_expires_at := none,
    verify_requested_at := none, first_name := none, last_name := none,
    display_name := none, avatar_url := none, bio := none, timezone := none,
    locale := none, marketing_opt_in := false, notify_prefs := none }

/-- A profile with a pending email code (hash stored under `hp = id`),
expiring at time 100, requested at time 0. -/
def pendingEmailProfile : Profile :=
  { baseProfile with
    email := some "a@x.com"
    verify_email_code_hash := some "123456"
    verify_expires_at := some 100
    verify_requested_at := some 0 }

/-- A profile with a pending phone code (hash stored under `hp = id`),
expiring at time 100, requested at time 0. -/
def pendingPhoneProfile : Profile :=
  { baseProfile with
    phone_e164 := some "+15550001111"
    verify_phone_code_hash := some "654321"
    verify_expires_at := some 100
    verify_requested_at := some 0 }

/-- C1 counterexample: the claim says every `verifyCode` call, returning true
or false, clears the channel's pending hash. At this concrete state a wrong
candidate makes `verify_email` return false with the state (hence the pending
hash) intact, and the very same code still matches in a later attempt. -/
theorem verify_failed_attempt_not_terminal :
    verify_email id 0 pendingEmailProfile "000000" = (false, pendingEmailProfile) ∧
    pendingEmailProfile.verify_email_code_hash = some "123456" ∧
    (verify_email id 1 pendingEmailProfile "123456").1 = true := by
  refine ⟨?_, rfl, ?_⟩ <;> decide

/-- C1 amended: a `verifyCode` call is terminal for the pending code only when
it returns true (the channel's hash is then cleared); a call returning false
leaves the whole profile — pending hash included — unchanged, so the code can
be matched later. -/
theorem verify_terminal_only_on_success (hp : String → String) (now : Int)
    (p : Profile) (code : String) :
    ((verify_email hp now p code).1 = true →
      (verify_email hp now p code).2.verify_email_code_hash = none) ∧
    ((verify_email hp now p code).1 = false → (verify_email hp now p code).2 = p) ∧
    ((verify_phone hp now p code).1 = true →
      (verify_phone hp now p code).2.verify_phone_code_hash = none) ∧
    ((verify_phone hp now p code).1 = false → (verify_phone hp now p code).2 = p) := by
  cases heh : p.verify_email_code_hash <;> cases hph : p.verify_phone_code_hash <;>
    cases hex : p.verify_expires_at <;>
      simp only [verify_email, verify_phone, heh, hph, hex] <;>
        refine ⟨?_, ?_, ?_, ?_⟩ <;> intros <;> (try split_ifs) <;> simp_all

/-- C1 amended, witness: at a concrete pending state, a successful call clears
the email hash and a failed call leaves the profile unchanged. -/
theorem verify_terminal_only_on_success_witness :
    (verify_email id 0 pendingEmailProfile "123456").2.verify_email_code_hash = none ∧
    (verify_email id 0 pendingEmailProfile "000000").2 = pendingEmailProfile :=
  ⟨(verify_terminal_only_on_success id 0 pendingEmailProfile "123456").1 (by decide),
   (verify_terminal_only_on_success id 0 pendingEmailProfile "000000").2.1 (by decide)⟩

/-- C2: with a pending, unexpired code and a matching candidate, `verifyCode`
returns true and the result has the channel's verified-timestamp set to `now`
and the pending hash, shared expiry and request-timestamp cleared. -/
theorem verify_success_sets_verified_and_clears (hp : String → String)
    (now : Int) (p : Profile) (code : String) :
    (∀ h exp, p.verify_email_code_hash = some h → h ≠ "" →
      p.verify_expires_at = some exp → ¬ exp < now → hp code = h →
      verify_email hp now p code =
        (true, { p with
          email_verified_at := some now
          verify_email_code_hash := none
          verify_expires_at := none
          verify_requested_at := none })) ∧
    (∀ h exp, p.verify_phone_code_hash = some h → h ≠ "" →
      p.verify_expires_at = some exp → ¬ exp < now → hp code = h →
      verify_phone hp now p code =
        (true, { p with
          phone_verified_at := some now
          verify_phone_code_hash := none
          verify_expires_at := none
          verify_requested_at := none })) := by
  constructor <;> intro h exp hh hne hex hlt hm <;>
    simp [verify_email, verify_phone, hh, hex, hne, hlt, hm]

/-- C2 witness: concrete successful verifications on both channels. -/
theorem verify_success_sets_verified_and_clears_witness :
    verify_email id 1 pendingEmailProfile "123456" =
      (true, { pendingEmailProfile with
        email_verified_at := some 1
        verify_email_code_hash := none
        verify_expires_at := none
        verify_requested_at := none }) ∧
    verify_phone id 1 pendingPhoneProfile "654321" =
      (true, { pendingPhoneProfile with
        phone_verified_at := some 1
        verify_phone_code_hash := none
        verify_expires_at := none
        verify_requested_at := none }) :=
  ⟨(verify_success_sets_verified_and_clears id 1 pendingEmailProfile "123456").1
      "123456" 100 rfl (by decide) rfl (by decide) rfl,
   (verify_success_sets_verified_and_clears id 1 pendingPhoneProfile "654321").2
      "654321" 100 rfl (by decide) rfl (by decide) rfl⟩

/-- C6: `verifyCode` returns false, raising nothing and leaving the profile
unchanged, when the channel has no pending hash (Python-falsy: absent or
empty), no expiry is set, or the expiry has passed. -/
theorem verify_no_pending_or_expired_returns_false (hp : String → String)
    (now : Int) (p : Profile) (code : String) :
    (strFalsy p.verify_email_code_hash = true → verify_email hp now p code = (false, p)) ∧
    (p.verify_expires_at = none → verify_email hp now p code = (false, p)) ∧
    (∀ exp, p.verify_expires_at = some exp → exp < now →
      verify_email hp now p code = (false, p)) ∧
    (strFalsy p.verify_phone_code_hash = true → verify_phone hp now p code = (false, p)) ∧
    (p.verify_expires_at = none → verify_phone hp now p code = (false, p)) ∧
    (∀ exp, p.verify_expires_at = some exp → exp < now →
      verify_phone hp now p code = (false, p)) := by
  cases heh : p.verify_email_code_hash <;> cases hph : p.verify_phone_code_hash <;>
    cases hex : p.verify_expires_at <;>
      simp only [verify_email, verify_phone, strFalsy, heh, hph, hex] <;>
        refine ⟨?_, ?_, ?_, ?_, ?_, ?_⟩ <;> intros <;> (try split_ifs) <;> simp_all

/-- C6 witness: concrete false verifications — empty profile (no pending
hash, no expiry) and expired pending codes on both channels, each leaving the
state untouched. -/
theorem verify_no_pending_or_expired_returns_false_witness :
    verify_email id 0 baseProfile "1" = (false, baseProfile) ∧
    verify_phone id 0 baseProfile "1" = (false, baseProfile) ∧
    verify_email id 200 pendingEmailProfile "123456" = (false, pendingEmailProfile) ∧
    verify_phone id 200 pendingPhoneProfile "654321" = (false, pendingPhoneProfile) :=
  ⟨(verify_no_pending_or_expired_returns_false id 0 baseProfile "1").1 rfl,
   (verify_no_pending_or_expired_returns_false id 0 baseProfile "1").2.2.2.1 rfl,
   (verify_no_pending_or_expired_returns_false id 200 pendingEmailProfile "123456").2.2.1
      100 rfl (by decide),
   (verify_no_pending_or_expired_returns_false id 200 pendingPhoneProfile "654321").2.2.2.2.2
      100 rfl (by decide)⟩

/-- C3: with a last-request timestamp `t ≤ now` set by a request to either
channel, both `request_email_code` and `request_phone_code` raise the
rate-limit error when fewer than `REQUEST_COOLDOWN_SECONDS` have elapsed, and
succeed once the cooldown has elapsed. -/
theorem request_code_rate_limit_window (hp : String → String) (now t : Int)
    (code : String) (p : Profile) (e ph : String)
    (hreq : p.verify_requested_at = some t) (_hpast : t ≤ now) :
    (now - t < REQUEST_COOLDOWN_SECONDS →
      request_email_code hp now code p e =
        .error "Please wait before requesting another code" ∧
      request_phone_code hp now code p ph =
        .error "Please wait before requesting another code") ∧
    (REQUEST_COOLDOWN_SECONDS ≤ now - t →
      (request_email_code hp now code p e).isOk = true ∧
      (request_phone_code hp now code p ph).isOk = true) := by
  constructor <;> intro hcd <;>
    simp [request_email_code, request_phone_code, rate_limited, hreq,
      Except.isOk, Except.toBool, hcd, not_lt.mpr hcd]

/-- C3 witness: at a concrete profile requested at time 0, a second request at
time 30 fails on both channels and a request at time 60 succeeds on both. -/
theorem request_code_rate_limit_window_witness :
    (request_email_code id 30 "1" pendingEmailProfile "b@x.com" =
        .error "Please wait before requesting another code" ∧
      request_phone_code id 30 "1" pendingEmailProfile "+15550002222" =
        .error "Please wait before requesting another code") ∧
    ((request_email_code id 60 "1" pendingEmailProfile "b@x.com").isOk = true ∧
      (request_phone_code id 60 "1" pendingEmailProfile "+15550002222").isOk = true) :=
  ⟨(request_code_rate_limit_window id 30 0 "1" pendingEmailProfile "b@x.com"
      "+15550002222" rfl (by decide)).1 (by decide),
   (request_code_rate_limit_window id 60 0 "1" pendingEmailProfile "b@x.com"
      "+15550002222" rfl (by decide)).2 (by decide)⟩

/-- C4: a successful `requestCode` stores the one-way hash `hp code` of the
generated code (not the plaintext code itself), sets the shared expiry to
`now` plus 15 minutes and the shared request-timestamp to `now`, and clears
the other channel's pending hash. -/
theorem request_code_stores_hash_ttl_and_clears_other (hp : String → String)
    (now : Int) (code : String) (p : Profile) (e ph : String)
    (hok : rate_limited p now = false) :
    (∃ q, request_email_code hp now code p e = .ok q ∧
      q.verify_email_code_hash = some (hp code) ∧
      q.verify_phone_code_hash = none ∧
      q.verify_expires_at = some (now + CODE_TTL_MINUTES * 60) ∧
      q.verify_requested_at = some now) ∧
    (∃ q, request_phone_code hp now code p ph = .ok q ∧
      q.verify_phone_code_hash = some (hp code) ∧
      q.verify_email_code_hash = none ∧
      q.verify_expires_at = some (now + CODE_TTL_MINUTES * 60) ∧
      q.verify_requested_at = some now) := by
  refine ⟨⟨{ p with
      email := some (lowerStrip e)
      verify_email_code_hash := some (hp code)
      verify_phone_code_hash := none
      verify_expires_at := some (now + CODE_TTL_MINUTES * 60)
      verify_requested_at := some now }, ?_, rfl, rfl, rfl, rfl⟩,
    ⟨{ p with
      phone_e164 := some ph.trim
      verify_phone_code_hash := some (hp code)
      verify_email_code_hash := none
      verify_expires_at := some (now + CODE_TTL_MINUTES * 60)
      verify_requested_at := some now }, ?_, rfl, rfl, rfl, rfl⟩⟩ <;>
    simp [request_email_code, request_phone_code, hok]

/-- C4 witness: a concrete request on each channel at time 0 on an empty
profile. -/
theorem request_code_stores_hash_ttl_and_clears_other_witness :
    (∃ q, request_email_code id 0 "111111" baseProfile "a@x.com" = .ok q ∧
      q.verify_email_code_hash = some (id "111111") ∧
      q.verify_phone_code_hash = none ∧
      q.verify_expires_at = some (0 + CODE_TTL_MINUTES * 60) ∧
      q.verify_requested_at = some 0) ∧
    (∃ q, request_phone_code id 0 "111111" baseProfile "+15550001111" = .ok q ∧
      q.verify_phone_code_hash = some (id "111111") ∧
      q.verify_email_code_hash = none ∧
      q.verify_expires_at = some (0 + CODE_TTL_MINUTES * 60) ∧
      q.verify_requested_at = some 0) :=
  request_code_stores_hash_ttl_and_clears_other id 0 "111111" baseProfile
    "a@x.com" "+15550001111" rfl

/-- The phone-change branch never touches the email-channel fields. -/
theorem apply_phone_change_email_frame (p : Profile) (payload : UpdateProfilePayload) :
    (apply_phone_change p payload).email = p.email ∧
    (apply_phone_change p payload).email_verified_at = p.email_verified_at ∧
    (apply_phone_change p payload).verify_email_code_hash = p.verify_email_code_hash := by
  cases hph : payload.phoneE164 <;> simp only [apply_phone_change, hph] <;>
    (try split_ifs) <;> simp

/-- The email-change branch never touches the phone-channel fields. -/
theorem apply_email_change_phone_frame (p : Profile) (payload : UpdateProfilePayload) :
    (apply_email_change p payload).phone_e164 = p.phone_e164 ∧
    (apply_email_change p payload).phone_verified_at = p.phone_verified_at ∧
    (apply_email_change p payload).verify_phone_code_hash = p.verify_phone_code_hash := by
  cases hpe : payload.email <;> simp only [apply_email_change, hpe] <;>
    (try split_ifs) <;> simp

/-- The phone-change branch either keeps or clears the shared
expiry/request-timestamp: it never sets them to fresh values. -/
theorem apply_phone_change_shared_none (p : Profile) (payload : UpdateProfilePayload)
    (hex : p.verify_expires_at = none) (hrq : p.verify_requested_at = none) :
    (apply_phone_change p payload).verify_expires_at = none ∧
    (apply_phone_change p payload).verify_requested_at = none := by
  cases hph : payload.phoneE164 <;> simp only [apply_phone_change, hph] <;>
    (try split_ifs) <;> simp [hex, hrq]

/-- C9: a successful `request_email_code` overwrites the stored email with the
lowercased, trimmed new value while leaving `email_verified_at` untouched
(still the old verification timestamp `vt`), whereas the same email change
through `update_profile` clears `email_verified_at`. -/
theorem request_email_code_preserves_verified_at (hp : String → String)
    (now vt : Int) (code : String) (p : Profile) (em : String)
    (hv : p.email_verified_at = some vt)
    (hok : rate_limited p now = false) :
    (∃ q, request_email_code hp now code p em = .ok q ∧
      q.email = some (lowerStrip em) ∧
      q.email_verified_at = some vt) ∧
    (∀ payload : UpdateProfilePayload, payload.email = some em →
      some em ≠ p.email →
      (update_profile p payload).email_verified_at = none) := by
  constructor
  · exact ⟨{ p with
      email := some (lowerStrip em)
      verify_email_code_hash := some (hp code)
      verify_phone_code_hash := none
      verify_expires_at := some (now + CODE_TTL_MINUTES * 60)
      verify_requested_at := some now }, by simp [request_email_code, hok], rfl, hv⟩
  · intro payload hpe hne
    have h1 : (apply_email_change p payload).email_verified_at = none := by
      simp only [apply_email_change, hpe]
      rw [if_pos hne]
    have h2 := (apply_phone_change_email_frame (apply_email_change p payload) payload).2.1
    simp [update_profile, apply_display_fields, h2, h1]

/-- C9 witness: requesting a new email code for a profile whose email is
already verified keeps the old `email_verified_at`, while the analogous
`update_profile` change clears it. -/
theorem request_email_code_preserves_verified_at_witness :
    (∃ q, request_email_code id 100 "222222"
        { baseProfile with email := some "a@x.com", email_verified_at := some 7 }
        " B@X.com " = .ok q ∧
      q.email = some (lowerStrip " B@X.com ") ∧
      q.email_verified_at = some 7) ∧
    (update_profile
        { baseProfile with email := some "a@x.com", email_verified_at := some 7 }
        { email := some " B@X.com " }).email_verified_at = none :=
  ⟨(request_email_code_preserves_verified_at id 100 7 "222222"
      { baseProfile with email := some "a@x.com", email_verified_at := some 7 }
      " B@X.com " rfl rfl).1,
   (request_email_code_preserves_verified_at id 100 7 "222222"
      { baseProfile with email := some "a@x.com", email_verified_at := some 7 }
      " B@X.com " rfl rfl).2 { email := some " B@X.com " } rfl (by decide)⟩

/-- The email-change branch leaves the identity of `apply_email_change` when
no email field is present in the payload. -/
theorem apply_email_change_id (p : Profile) (payload : UpdateProfilePayload)
    (h : payload.email = none) : apply_email_change p payload = p := by
  simp [apply_email_change, h]

/-- The phone-change branch is the identity when no phone field is present. -/
theorem apply_phone_change_id (p : Profile) (payload : UpdateProfilePayload)
    (h : payload.phoneE164 = none) : apply_phone_change p payload = p := by
  simp [apply_phone_change, h]

/-- The email-change branch writes only the email value, the email
verification fields and the shared expiry/request-timestamp; every other
column is untouched. -/
theorem apply_email_change_frame (p : Profile) (payload : UpdateProfilePayload) :
    (apply_email_change p payload).phone_e164 = p.phone_e164 ∧
    (apply_email_change p payload).phone_verified_at = p.phone_verified_at ∧
    (apply_email_change p payload).verify_phone_code_hash = p.verify_phone_code_hash ∧
    (apply_email_change p payload).first_name = p.first_name ∧
    (apply_email_change p payload).last_name = p.last_name ∧
    (apply_email_change p payload).display_name = p.display_name ∧
    (apply_email_change p payload).avatar_url = p.avatar_url ∧
    (apply_email_change p payload).bio = p.bio ∧
    (apply_email_change p payload).timezone = p.timezone ∧
    (apply_email_change p payload).locale = p.locale ∧
    (apply_email_change p payload).marketing_opt_in = p.marketing_opt_in ∧
    (apply_email_change p payload).notify_prefs = p.notify_prefs := by
  cases h : payload.email <;> simp only [apply_email_change, h] <;>
    (try split_ifs) <;> simp

/-- The phone-change branch writes only the phone value, the phone
verification fields and the shared expiry/request-timestamp. -/
theorem apply_phone_change_frame (p : Profile) (payload : UpdateProfilePayload) :
    (apply_phone_change p payload).email = p.email ∧
    (apply_phone_change p payload).email_verified_at = p.email_verified_at ∧
    (apply_phone_change p payload).verify_email_code_hash = p.verify_email_code_hash ∧
    (apply_phone_change p payload).first_name = p.first_name ∧
    (apply_phone_change p payload).last_name = p.last_name ∧
    (apply_phone_change p payload).display_name = p.display_name ∧
    (apply_phone_change p payload).avatar_url = p.avatar_url ∧
    (apply_phone_change p payload).bio = p.bio ∧
    (apply_phone_change p payload).timezone = p.timezone ∧
    (apply_phone_change p payload).locale = p.locale ∧
    (apply_phone_change p payload).marketing_opt_in = p.marketing_opt_in ∧
    (apply_phone_change p payload).notify_prefs = p.notify_prefs := by
  cases h : payload.phoneE164 <;> simp only [apply_phone_change, h] <;>
    (try split_ifs) <;> simp

/-- A profile used by several concrete checks: both channels set and
verified, with a pending email code requested at time 40. -/
def fullVerifiedProfile : Profile :=
  { baseProfile with
    email := some "a@x.com"
    email_verified_at := some 10
    phone_e164 := some "+15550001111"
    phone_verified_at := some 20
    verify_email_code_hash := some "123456"
    verify_expires_at := some 100
    verify_requested_at := some 40 }

/-- C5: an `updateProfile` input carrying an email (resp. phone) value that
differs from the stored one yields a profile whose channel verified-timestamp
and pending hash are cleared, whose shared expiry and request-timestamp are
cleared, and whose channel value is the normalised new value. -/
theorem update_profile_contact_change_resets_verification (p : Profile)
    (payload : UpdateProfilePayload) :
    (∀ e, payload.email = some e → some e ≠ p.email →
      (update_profile p payload).email_verified_at = none ∧
      (update_profile p payload).verify_email_code_hash = none ∧
      (update_profile p payload).verify_expires_at = none ∧
      (update_profile p payload).verify_requested_at = none ∧
      (update_profile p payload).email = strOrNone (lowerStrip e)) ∧
    (∀ ph, payload.phoneE164 = some ph → some ph ≠ p.phone_e164 →
      (update_profile p payload).phone_verified_at = none ∧
      (update_profile p payload).verify_phone_code_hash = none ∧
      (update_profile p payload).verify_expires_at = none ∧
      (update_profile p payload).verify_requested_at = none ∧
      (update_profile p payload).phone_e164 = strOrNone ph.trim) := by
  constructor
  · intro e hpe hne
    have h1 : apply_email_change p payload =
        { p with
          email := strOrNone (lowerStrip e)
          email_verified_at := none
          verify_email_code_hash := none
          verify_expires_at := none
          verify_requested_at := none } := by
      simp only [apply_email_change, hpe]
      rw [if_pos hne]
    have hfr := apply_phone_change_frame (apply_email_change p payload) payload
    have hsh := apply_phone_change_shared_none (apply_email_change p payload) payload
      (by rw [h1]) (by rw [h1])
    refine ⟨?_, ?_, ?_, ?_, ?_⟩ <;>
      simp only [update_profile, apply_display_fields] <;>
      (try simp only [hfr.1, hfr.2.1, hfr.2.2.1, hsh.1, hsh.2]) <;>
      simp [h1]
  · intro ph hph hne
    have hq : (apply_email_change p payload).phone_e164 = p.phone_e164 :=
      (apply_email_change_phone_frame p payload).1
    have h1 : apply_phone_change (apply_email_change p payload) payload =
        { apply_email_change p payload with
          phone_e164 := strOrNone ph.trim
          phone_verified_at := none
          verify_phone_code_hash := none
          verify_expires_at := none
          verify_requested_at := none } := by
      simp only [apply_phone_change, hph, hq]
      rw [if_pos hne]
    refine ⟨?_, ?_, ?_, ?_, ?_⟩ <;>
      simp [update_profile, apply_display_fields, h1]

/-- C5 witness: changing both contact values on a fully verified profile with
a pending email code clears both channels' verification state, the shared
expiry/request fields, and stores the normalised new values. -/
theorem update_profile_contact_change_resets_verification_witness :
    ((update_profile fullVerifiedProfile
        { email := some " B@Y.com ", phoneE164 := some " +15550009999 " }).email_verified_at = none ∧
      (update_profile fullVerifiedProfile
        { email := some " B@Y.com ", phoneE164 := some " +15550009999 " }).verify_email_code_hash = none ∧
      (update_profile fullVerifiedProfile
        { email := some " B@Y.com ", phoneE164 := some " +15550009999 " }).verify_expires_at = none ∧
      (update_profile fullVerifiedProfile
        { email := some " B@Y.com ", phoneE164 := some " +15550009999 " }).verify_requested_at = none ∧
      (update_profile fullVerifiedProfile
        { email := some " B@Y.com ", phoneE164 := some " +15550009999 " }).email =
          strOrNone (lowerStrip " B@Y.com ")) ∧
    ((update_profile fullVerifiedProfile
        { email := some " B@Y.com ", phoneE164 := some " +15550009999 " }).phone_verified_at = none ∧
      (update_profile fullVerifiedProfile
        { email := some " B@Y.com ", phoneE164 := some " +15550009999 " }).verify_phone_code_hash = none ∧
      (update_profile fullVerifiedProfile
        { email := some " B@Y.com ", phoneE164 := some " +15550009999 " }).verify_expires_at = none ∧
      (update_profile fullVerifiedProfile
        { email := some " B@Y.com ", phoneE164 := some " +15550009999 " }).verify_requested_at = none ∧
      (update_profile fullVerifiedProfile
        { email := some " B@Y.com ", phoneE164 := some " +15550009999 " }).phone_e164 =
          strOrNone (String.trim " +15550009999 ")) :=
  ⟨(update_profile_contact_change_resets_verification fullVerifiedProfile
      { email := some " B@Y.com ", phoneE164 := some " +15550009999 " }).1
      " B@Y.com " rfl (by decide),
   (update_profile_contact_change_resets_verification fullVerifiedProfile
      { email := some " B@Y.com ", phoneE164 := some " +15550009999 " }).2
      " +15550009999 " rfl (by decide)⟩

/-- C8: partial-update semantics — every profile column that has a
corresponding input field keeps its stored value whenever that input field is
absent. -/
theorem update_profile_partial_frame (p : Profile) (payload : UpdateProfilePayload) :
    (payload.email = none → (update_profile p payload).email = p.email) ∧
    (payload.phoneE164 = none → (update_profile p payload).phone_e164 = p.phone_e164) ∧
    (payload.firstName = none → (update_profile p payload).first_name = p.first_name) ∧
    (payload.lastName = none → (update_profile p payload).last_name = p.last_name) ∧
    (payload.displayName = none → (update_profile p payload).display_name = p.display_name) ∧
    (payload.avatarUrl = none → (update_profile p payload).avatar_url = p.avatar_url) ∧
    (payload.bio = none → (update_profile p payload).bio = p.bio) ∧
    (payload.timezone = none → (update_profile p payload).timezone = p.timezone) ∧
    (payload.locale = none → (update_profile p payload).locale = p.locale) ∧
    (payload.marketingOptIn = none →
      (update_profile p payload).marketing_opt_in = p.marketing_opt_in) ∧
    (payload.notifyPrefs = none →
      (update_profile p payload).notify_prefs = p.notify_prefs) := by
  have he := apply_email_change_frame p payload
  have hp2 := apply_phone_change_frame (apply_email_change p payload) payload
  have hp3 := apply_phone_change_frame p payload
  refine ⟨?_, ?_, ?_, ?_, ?_, ?_, ?_, ?_, ?_, ?_, ?_⟩ <;> intro h <;>
    simp [update_profile, apply_display_fields, overwriteOpt,
      apply_email_change_id, apply_phone_change_id, h, hp3.1,
      he.1, he.2.1, he.2.2.1, he.2.2.2.1, he.2.2.2.2.1, he.2.2.2.2.2.1,
      he.2.2.2.2.2.2.1, he.2.2.2.2.2.2.2.1, he.2.2.2.2.2.2.2.2.1,
      he.2.2.2.2.2.2.2.2.2.1, he.2.2.2.2.2.2.2.2.2.2.1, he.2.2.2.2.2.2.2.2.2.2.2,
      hp2.1, hp2.2.1, hp2.2.2.1, hp2.2.2.2.1, hp2.2.2.2.2.1, hp2.2.2.2.2.2.1,
      hp2.2.2.2.2.2.2.1, hp2.2.2.2.2.2.2.2.1, hp2.2.2.2.2.2.2.2.2.1,
      hp2.2.2.2.2.2.2.2.2.2.1, hp2.2.2.2.2.2.2.2.2.2.2]

/-- C8 witness: updating with an empty payload leaves every addressed field
of a concrete profile unchanged. -/
theorem update_profile_partial_frame_witness :
    (update_profile fullVerifiedProfile {}).email = fullVerifiedProfile.email ∧
    (update_profile fullVerifiedProfile {}).phone_e164 = fullVerifiedProfile.phone_e164 ∧
    (update_profile fullVerifiedProfile {}).first_name = fullVerifiedProfile.first_name ∧
    (update_profile fullVerifiedProfile {}).last_name = fullVerifiedProfile.last_name ∧
    (update_profile fullVerifiedProfile {}).display_name = fullVerifiedProfile.display_name ∧
    (update_profile fullVerifiedProfile {}).avatar_url = fullVerifiedProfile.avatar_url ∧
    (update_profile fullVerifiedProfile {}).bio = fullVerifiedProfile.bio ∧
    (update_profile fullVerifiedProfile {}).timezone = fullVerifiedProfile.timezone ∧
    (update_profile fullVerifiedProfile {}).locale = fullVerifiedProfile.locale ∧
    (update_profile fullVerifiedProfile {}).marketing_opt_in = fullVerifiedProfile.marketing_opt_in ∧
    (update_profile fullVerifiedProfile {}).notify_prefs = fullVerifiedProfile.notify_prefs :=
  ⟨(update_profile_partial_frame fullVerifiedProfile {}).1 rfl,
   (update_profile_partial_frame fullVerifiedProfile {}).2.1 rfl,
   (update_profile_partial_frame fullVerifiedProfile {}).2.2.1 rfl,
   (update_profile_partial_frame fullVerifiedProfile {}).2.2.2.1 rfl,
   (update_profile_partial_frame fullVerifiedProfile {}).2.2.2.2.1 rfl,
   (update_profile_partial_frame fullVerifiedProfile {}).2.2.2.2.2.1 rfl,
   (update_profile_partial_frame fullVerifiedProfile {}).2.2.2.2.2.2.1 rfl,
   (update_profile_partial_frame fullVerifiedProfile {}).2.2.2.2.2.2.2.1 rfl,
   (update_profile_partial_frame fullVerifiedProfile {}).2.2.2.2.2.2.2.2.1 rfl,
   (update_profile_partial_frame fullVerifiedProfile {}).2.2.2.2.2.2.2.2.2.1 rfl,
   (update_profile_partial_frame fullVerifiedProfile {}).2.2.2.2.2.2.2.2.2.2 rfl⟩

/-- C10: when the rate limit trips, both request functions raise before any
write, and the committed profile (rollback of the uncommitted transaction) is
exactly the input profile. -/
theorem request_code_rate_limited_no_mutation (hp : String → String) (now : Int)
    (code : String) (p : Profile) (e ph : String)
    (hrl : rate_limited p now = true) :
    request_email_code hp now code p e =
      .error "Please wait before requesting another code" ∧
    request_email_code_commit hp now code p e = p ∧
    request_phone_code hp now code p ph =
      .error "Please wait before requesting another code" ∧
    request_phone_code_commit hp now code p ph = p := by
  simp [request_email_code, request_phone_code, request_email_code_commit,
    request_phone_code_commit, hrl]

/-- C10 witness: a concrete rate-limited state (requested at 40, called at
70) is left untouched by both failing calls. -/
theorem request_code_rate_limited_no_mutation_witness :
    request_email_code id 70 "1" fullVerifiedProfile "b@y.com" =
      .error "Please wait before requesting another code" ∧
    request_email_code_commit id 70 "1" fullVerifiedProfile "b@y.com" = fullVerifiedProfile ∧
    request_phone_code id 70 "1" fullVerifiedProfile "+15550009999" =
      .error "Please wait before requesting another code" ∧
    request_phone_code_commit id 70 "1" fullVerifiedProfile "+15550009999" = fullVerifiedProfile :=
  request_code_rate_limited_no_mutation id 70 "1" fullVerifiedProfile "b@y.com"
    "+15550009999" (by decide)

/-- Two concrete stored notifications, the second newer; the older one has a
null payload. -/
def notifOld : Notification :=
  { id := "n1", type := "signup", data := none, created_at := 1, read_at := none }

/-- See `notifOld`. -/
def notifNew : Notification :=
  { id := "n2", type := "system", data := some [("k", "v")], created_at := 5,
    read_at := none }

/-- C7: `list_notifications` returns at most 50 items, in non-increasing
creation-time order (the `ORDER BY created_at DESC` key; ties carry no
further ordering), and every returned item comes from a stored row with its
payload defaulted to the empty map when the stored payload is null. -/
theorem list_notifications_capped_sorted_default_payload
    (stored : List Notification) :
    (list_notifications stored).length ≤ 50 ∧
    (list_notifications stored).Pairwise
      (fun a b => b.createdAt ≤ a.createdAt) ∧
    (∀ o ∈ list_notifications stored, ∃ n ∈ stored,
      o = notificationOut n ∧ (n.data = none → o.data = [])) := by
  refine ⟨?_, ?_, ?_⟩
  · simp only [list_notifications, List.length_map]
    exact le_trans (Nat.le_of_eq (List.length_take 50 _)) (min_le_left _ _)
  · have htrans : ∀ a b c : Notification,
        decide (b.created_at ≤ a.created_at) = true →
        decide (c.created_at ≤ b.created_at) = true →
        decide (c.created_at ≤ a.created_at) = true := by
      intro a b c hab hbc
      simp only [decide_eq_true_eq] at *
      omega
    have htotal : ∀ a b : Notification,
        (decide (b.created_at ≤ a.created_at) ||
          decide (a.created_at ≤ b.created_at)) = true := by
      intro a b
      simp only [Bool.or_eq_true, decide_eq_true_eq]
      omega
    have hs := @List.sorted_mergeSort Notification
      (fun a b => decide (b.created_at ≤ a.created_at)) htrans htotal stored
    have h2 : (stored.mergeSort
        (fun a b => decide (b.created_at ≤ a.created_at))).Pairwise
        (fun a b : Notification => b.created_at ≤ a.created_at) :=
      hs.imp (by intro a b hab; simpa using hab)
    have h3 := List.Pairwise.sublist (List.take_sublist 50 _) h2
    exact List.pairwise_map.mpr h3
  · intro o ho
    simp only [list_notifications, List.mem_map] at ho
    obtain ⟨n, hn, rfl⟩ := ho
    have hn2 : n ∈ stored :=
      (List.mergeSort_perm stored _).subset ((List.take_sublist 50 _).subset hn)
    exact ⟨n, hn2, rfl, fun hd => by simp [notificationOut, hd]⟩

/-- C7 witness: on a concrete two-element store the cap holds and the item
with null payload comes back with an empty map, newest first. -/
theorem list_notifications_capped_sorted_default_payload_witness :
    (list_notifications [notifOld, notifNew]).length ≤ 50 ∧
    list_notifications [notifOld, notifNew] =
      [notificationOut notifNew, notificationOut notifOld] ∧
    (notificationOut notifOld).data = [] :=
  ⟨(list_notifications_capped_sorted_default_payload [notifOld, notifNew]).1,
   by simp [list_notifications, List.mergeSort, notifOld, notifNew], rfl⟩

end Backend
